import Mathlib

/-!
Shallow embedding of the pykiso CAN connector adapters
(src/pykiso/lib/connectors/cc_pcan_can.py and cc_vector_can.py).

Pure fragments of the Python code (path handling, trace-size clamping,
frame construction, the receive-outcome normalisation, the close state
transition, and the trace-segment merge with its renumbering pass) are
translated into executable Lean definitions; filesystem state is passed
explicitly as a list of files and SDK outcomes are passed explicitly as
inductive values.
-/

namespace CcCan

/-! ## Path model (pathlib.PurePosixPath as used by the connector)

A Path value keeps an absolute flag and the component list.  pathlib drops
empty components and single-dot components when parsing.  A Python Path
object defines no truth-value protocol, so bool(Path(...)) is always True,
including for Path("") which normalises to Path("."). -/

structure PathM where
  absolute : Bool
  comps : List String
deriving DecidableEq, Repr

/-- Split a character list on the path separator, as str.split does:
the empty input yields one empty field, and every separator opens a new
field. -/
def pySplitSlash : List Char → List (List Char)
  | [] => [[]]
  | c :: cs =>
    match pySplitSlash cs with
    | [] => [[]]
    | w :: ws => if c = '/' then [] :: w :: ws else (c :: w) :: ws

/-- Parse a string the way pathlib.PurePosixPath does: split on the path
separator, drop empty and single-dot components, record leading-slash
absoluteness. -/
def parsePath (s : String) : PathM :=
  ⟨(match s.toList with
    | '/' :: _ => true
    | _ => false),
   ((pySplitSlash s.toList).map String.mk).filter
     (fun c => decide (c ≠ "" ∧ c ≠ "."))⟩

/-- pathlib Path.name: the final component, or the empty string when there
is none. -/
def pathName (p : PathM) : String :=
  p.comps.getLast?.getD ""

/-- pathlib Path.parent: the path with the final component removed. -/
def pathParent (p : PathM) : PathM :=
  ⟨p.absolute, p.comps.dropLast⟩

/-- Index of the last dot in a character list, if any. -/
def rfindDot (cs : List Char) : Option Nat :=
  ((List.range cs.length).filter (fun i => decide (cs.getD i ' ' = '.'))).getLast?

/-- pathlib Path.suffix on the name: the substring from the last dot,
provided that dot is neither the first nor the last character of the
name; otherwise the empty string. -/
def pathSuffix (p : PathM) : String :=
  let cs := (pathName p).toList
  match rfindDot cs with
  | none => ""
  | some i => if 0 < i ∧ i + 1 < cs.length then String.mk (cs.drop i) else ""

/-- bool(Path(...)) in Python: Path defines neither a boolean nor a length
protocol, so every Path object is truthy (the cwd-defaulting branch of
the source is therefore unreachable). -/
def pathTruthy (_ : PathM) : Bool := true

/-! ## CCPCanCan construction-time trace handling -/

/-- Result of the trace-path part of CCPCanCan construction. -/
structure TraceConfig where
  traceDir : PathM
  traceName : Option String
deriving DecidableEq, Repr

/-- Placeholder for Path.cwd() in the unreachable defaulting branch. -/
def cwdPath : PathM := ⟨true, ["cwd"]⟩

/-- The trace-path branch chain of CCPCanCan (source method that sets
trace_name and trace_path from the configured path, raising ValueError
for a non-trc suffix).  Mirrors the if/elif chain of the source,
including the unreachable branch guarded by falsiness of the Path. -/
def tracePathSetup (tracePathStr : String) : Except String TraceConfig :=
  let p := parsePath tracePathStr
  if pathSuffix p = ".trc" then
    .ok ⟨pathParent p, some (pathName p)⟩
  else if pathTruthy p ∧ pathSuffix p = "" then
    .ok ⟨p, none⟩
  else if ¬ pathTruthy p then
    .ok ⟨cwdPath, none⟩
  else if pathSuffix p ≠ ".trc" ∧ pathSuffix p ≠ "" then
    .error "ValueError: trace name is incorrect, it should be a trc file"
  else
    .ok ⟨p, none⟩

/-- The trace-size check of CCPCanCan construction: sizes outside
(0, 100] are replaced by the default 10 with a warning; no error is ever
raised. -/
def checkTraceSize (traceSize : Int) : Int :=
  if 0 < traceSize ∧ traceSize ≤ 100 then traceSize else 10

/-! ## Frame construction for send -/

/-- An outbound can.Message as built by the connectors; the arbitration
identifier is an Option because Python passes None through when neither
the caller nor the configuration supplies an identifier. -/
structure CanFrame where
  arbitrationId : Option Nat
  data : List Nat
  isExtendedId : Bool
  isFd : Bool
  bitrateSwitch : Bool
deriving DecidableEq, Repr

/-- Python truthiness-based defaulting x or y as applied by CCPCanCan to
the remote identifier: None and 0 are both falsy, so both select the
configured default. -/
def pyOrId (caller config : Option Nat) : Option Nat :=
  match caller with
  | none => config
  | some 0 => config
  | some r => some r

/-- Frame built by CCPCanCan (remote_id := remote_id or self.remote_id,
then can.Message with the configured flags). -/
def pcanSendFrame (configRemoteId : Option Nat) (isExtendedId isFd enableBrs : Bool)
    (msg : List Nat) (callerRemoteId : Option Nat) : CanFrame :=
  ⟨pyOrId callerRemoteId configRemoteId, msg, isExtendedId, isFd, enableBrs⟩

/-- Frame built by CCVectorCan (if remote_id is None: remote_id :=
self.remote_id; bitrate switch is never set by this connector). -/
def vectorSendFrame (configRemoteId : Option Nat) (isExtendedId fd : Bool)
    (msg : List Nat) (callerRemoteId : Option Nat) : CanFrame :=
  let rid := match callerRemoteId with
    | none => configRemoteId
    | some r => some r
  ⟨rid, msg, isExtendedId, fd, false⟩

/-! ## Receive normalisation -/

/-- The possible outcomes of the underlying bus.recv call: a frame, no
frame within the timeout, a raised can.CanError, or any other raised
exception. -/
inductive RecvOutcome where
  | frame (remoteId : Nat) (payload : List Nat) (timestamp : Int)
  | noFrame
  | canError
  | unexpectedError
deriving DecidableEq, Repr

/-- Values stored in the dictionary CCPCanCan returns from receive. -/
inductive RVal where
  | payload (p : List Nat)
  | id (n : Nat)
  | pyNone
deriving DecidableEq, Repr

/-- Effective timeout used by CCPCanCan: timeout or self.timeout, where a
zero float is falsy and self.timeout is the configured 1e-6 default
(represented exactly as a rational). -/
def pcanEffectiveTimeout (timeout : ℚ) : ℚ :=
  if timeout = 0 then 1 / 1000000 else timeout

/-- CCPCanCan receive: the try block turns the recv outcome into a
dictionary; a received frame yields msg and remote_id entries (the
extracted timestamp is only logged), while None, a caught can.CanError
and any other caught exception all yield a dictionary holding only
msg := None.  Total by construction: the two except clauses make every
failure return normally. -/
def pcanReceive (timeout : ℚ) (o : RecvOutcome) : List (String × RVal) :=
  let _ := pcanEffectiveTimeout timeout
  match o with
  | .frame remoteId payload _ => [("msg", .payload payload), ("remote_id", .id remoteId)]
  | .noFrame => [("msg", .pyNone)]
  | .canError => [("msg", .pyNone)]
  | .unexpectedError => [("msg", .pyNone)]

/-- CCVectorCan receive: returns (payload, frame_id) on a frame —
running the payload through Message.parse_packet unless raw is set, a
step that may itself fail and then falls into the except clause — and
(None, None) when recv returned None or anything was raised (the except
clause catches BaseException). parsePacket stands for the external
Message.parse_packet, Option-valued to model its possible failure. -/
def vectorReceive (parsePacket : List Nat → Option (List Nat)) (raw : Bool)
    (o : RecvOutcome) : Option (List Nat) × Option Nat :=
  match o with
  | .frame remoteId payload _ =>
    if raw then (some payload, some remoteId)
    else
      match parsePacket payload with
      | some parsed => (some parsed, some remoteId)
      | none => (none, none)
  | .noFrame => (none, none)
  | .canError => (none, none)
  | .unexpectedError => (none, none)

/-! ## Close -/

/-- Outcome of the raw PCAN Uninitialize call used during close. -/
inductive UninitOutcome where
  | ok
  | errCode (code : Nat)
  | raised
deriving DecidableEq, Repr

/-- The mutable fields of CCPCanCan that close touches: the bus handle,
the raw PCAN interface handle, and the logging flag. -/
structure PcanState where
  bus : Option Unit
  rawPcan : Option Unit
  loggingActivated : Bool
deriving DecidableEq, Repr

/-- Exceptions the close transition can propagate. -/
inductive CloseError where
  | attributeError
deriving DecidableEq, Repr

/-- CCPCanCan close: self.bus.shutdown() raises AttributeError when the
bus handle is None (nothing guards it); otherwise the bus is cleared,
and when logging is activated the Uninitialize call runs inside
try/except/else/finally — a raised exception is caught and logged, a
non-OK result code is only logged, and the finally clause clears the raw
PCAN handle in every case, so the diagnostic part never propagates. -/
def pcanClose (uninit : UninitOutcome) (s : PcanState) : Except CloseError PcanState :=
  match s.bus with
  | none => .error .attributeError
  | some _ =>
    let s1 : PcanState := { s with bus := none }
    if s1.loggingActivated then
      match uninit with
      | .ok => .ok { s1 with rawPcan := none }
      | .errCode _ => .ok { s1 with rawPcan := none }
      | .raised => .ok { s1 with rawPcan := none }
    else
      .ok s1

/-! ## Trace merge and renumbering

Lines of a trace file are modelled as character lists (the line
terminator kept by splitlines(True) is part of the line, as in the
source). -/

/-- Decimal digit characters of a natural number, most significant
first: the model of Python str(n) for a non-negative int. -/
def decDigits (n : Nat) : List Char :=
  if h : n < 10 then [Char.ofNat (48 + n)]
  else decDigits (n / 10) ++ [Char.ofNat (48 + n % 10)]
  termination_by n
  decreasing_by
    exact Nat.div_lt_self (Nat.pos_of_ne_zero (by omega)) (by omega)

/-- Python str.rjust(w): pad on the left with spaces up to width w, never
truncating. -/
def rjust (w : Nat) (s : List Char) : List Char :=
  List.replicate (w - s.length) ' ' ++ s

/-- The end of the trace-file header: first_message_line in the source. -/
def firstMessageLine : Nat := 33

/-- The width of the message-number field: message_nb_index in the
source. -/
def messageNbIndex : Nat := 7

/-- One line rewritten by the renumbering loop: the 1-based body position
right-justified into the first seven columns, followed by the original
line from column seven on. -/
def fixLine (bodyPos : Nat) (line : List Char) : List Char :=
  rjust messageNbIndex (decDigits bodyPos) ++ line.drop messageNbIndex

/-- The renumbering loop of the source, carrying the running line number
i: lines before fml are kept, each later line at number i is replaced by
fixLine ((i + 1) - fml). -/
def fixFrom (fml : Nat) (i : Nat) : List (List Char) → List (List Char)
  | [] => []
  | l :: ls => (if i < fml then l else fixLine (i + 1 - fml) l) :: fixFrom fml (i + 1) ls

/-- The renumbering pass over a merged trace (the method that parses the
message numbers and rewrites them so numbering is contiguous). -/
def fixMessageNumbers (fml : Nat) (lines : List (List Char)) : List (List Char) :=
  fixFrom fml 0 lines

/-- A file of the trace directory: name, modification time, lines. -/
structure TrcFile where
  name : String
  mtime : Nat
  lines : List (List Char)
deriving DecidableEq, Repr

/-- Python list slicing lst[-k:]: for positive k the last k elements (all
of them when fewer than k exist), but for k = 0 the slice is lst[0:],
the whole list. -/
def pySliceLastF (k : Nat) (l : List TrcFile) : List TrcFile :=
  if k = 0 then l else l.drop (l.length - k)

/-- Stable insertion of a file into a list sorted by ascending mtime:
an element with an equal key stays after the ones already present, as
the stable sort of Python guarantees. -/
def insertByMtime (f : TrcFile) : List TrcFile → List TrcFile
  | [] => [f]
  | g :: gs => if f.mtime < g.mtime then f :: g :: gs else g :: insertByMtime f gs

/-- sorted(files, key := getmtime): a stable sort by ascending
modification time. -/
def sortByMtime (l : List TrcFile) : List TrcFile :=
  l.foldl (fun acc f => insertByMtime f acc) []

/-- The segment-selection step of the merge: glob the .trc files of the
trace directory, sort by modification time ascending, and slice off the
last trc_count of them with Python list slicing. -/
def selectTraces (trcCount : Nat) (dir : List TrcFile) : List TrcFile :=
  pySliceLastF trcCount
    (sortByMtime (dir.filter (fun f => (".trc".toList).isSuffixOf f.name.toList)))

/-- Concatenation step of the merge over the eligible segment contents:
the first (earliest) segment is the target and keeps all its lines; each
later segment contributes its lines after the 33-line header. -/
def mergeSegments (segs : List (List (List Char))) : List (List Char) :=
  match segs with
  | [] => []
  | t :: rest => t ++ (rest.map (fun s => s.drop firstMessageLine)).flatten

/-- Content of the merged result file: concatenation followed by the
renumbering pass. -/
def mergedContent (segs : List (List (List Char))) : List (List Char) :=
  fixMessageNumbers firstMessageLine (mergeSegments segs)

/-- Sum of per-segment body sizes (lines beyond the 33-line header). -/
def bodyTotal (segs : List (List (List Char))) : Nat :=
  (segs.map (fun s => s.length - firstMessageLine)).sum

/-- The whole merge as a transformation of the trace directory: select
the eligible segments; on an empty selection the IndexError from
indexing [0] is caught and the merge is a logged no-op; otherwise the
earliest segment becomes the result file (renamed to the configured
trace name when one is set), every other selected segment is appended
header-stripped and deleted, and the result is renumbered. -/
def mergeTrc (traceName : Option String) (trcCount : Nat) (dir : List TrcFile) :
    List TrcFile :=
  let traces := selectTraces trcCount dir
  match traces with
  | [] => dir
  | t :: rest =>
    let resultName := match traceName with
      | none => t.name
      | some n => n
    let result : TrcFile :=
      ⟨resultName, t.mtime, mergedContent (t.lines :: rest.map TrcFile.lines)⟩
    result :: dir.filter (fun f => !((t :: rest).map TrcFile.name).contains f.name)

/-! ## Helper lemmas -/

/-- The renumbering loop keeps the number of lines. -/
theorem fixFrom_length (fml i : Nat) (ls : List (List Char)) :
    (fixFrom fml i ls).length = ls.length := by
  induction ls generalizing i with
  | nil => rfl
  | cons l ls ih => simp [fixFrom, ih]

/-- Element description of the renumbering loop: position j of the
output is the input line when the running number i + j is still in the
header, and otherwise that line renumbered with body position
i + j + 1 - fml. -/
theorem fixFrom_getD (fml : Nat) (ls : List (List Char)) (i j : Nat)
    (hj : j < ls.length) :
    (fixFrom fml i ls).getD j [] =
      if i + j < fml then ls.getD j []
      else fixLine (i + j + 1 - fml) (ls.getD j []) := by
  induction ls generalizing i j with
  | nil => simp at hj
  | cons l ls ih =>
    cases j with
    | zero => simp [fixFrom]
    | succ j =>
      have hj2 : j < ls.length := by simpa using hj
      have := ih (i + 1) j hj2
      simp only [fixFrom, List.getD_cons_succ, this]
      have harith : i + 1 + j = i + (j + 1) := by omega
      rw [harith]

/-- A number below 10 ^ k has at most k decimal digits (k positive). -/
theorem decDigits_length_le (k : Nat) : ∀ n : Nat, 0 < k → n < 10 ^ k →
    (decDigits n).length ≤ k := by
  induction k with
  | zero => intro n h; omega
  | succ k ih =>
    intro n _ hn
    by_cases h10 : n < 10
    · rw [decDigits, dif_pos h10]
      simp
    · rw [decDigits, dif_neg h10]
      have hk : 0 < k := by
        by_contra hk0
        have : k = 0 := by omega
        subst this
        simp [pow_succ] at hn
        omega
      have hdiv : n / 10 < 10 ^ k := by
        apply Nat.div_lt_of_lt_mul
        calc n < 10 ^ (k + 1) := hn
        _ = 10 * 10 ^ k := by ring
      have := ih (n / 10) hk hdiv
      simp only [List.length_append, List.length_cons, List.length_nil]
      omega

/-- Right-justifying a string no longer than the field width yields
exactly the field width. -/
theorem rjust_length (w : Nat) (s : List Char) (h : s.length ≤ w) :
    (rjust w s).length = w := by
  simp [rjust]
  omega

/-- Length of the concatenation step: the target keeps everything, each
later segment loses its 33-line header. -/
theorem mergeSegments_length (segs : List (List (List Char)))
    (hne : segs ≠ []) (hlen : ∀ s ∈ segs, firstMessageLine ≤ s.length) :
    (mergeSegments segs).length = firstMessageLine + bodyTotal segs := by
  match segs with
  | [] => exact absurd rfl hne
  | t :: rest =>
    have ht : firstMessageLine ≤ t.length := hlen t (by simp)
    simp only [mergeSegments, bodyTotal, List.length_append, List.length_flatten,
      List.map_map, List.map_cons, List.sum_cons]
    have hmap : ((rest.map fun s => s.drop firstMessageLine).map List.length).sum
        = (rest.map fun s => s.length - firstMessageLine).sum := by
      rw [List.map_map]
      congr 1
      apply List.map_congr_left
      intro s _
      simp
    rw [List.map_map] at hmap
    rw [hmap]
    omega

/-! ## Claim theorems -/

/-- C8: every trace-size value inside (0, 100] is stored unchanged, and
every value outside that interval is replaced by the default 10 MB; in
both cases the check returns normally (checkTraceSize is a total
function, mirroring that the source only logs a warning and never
raises). -/
theorem c8_trace_size_clamp (x : Int) :
    (0 < x ∧ x ≤ 100 → checkTraceSize x = x) ∧
    (¬ (0 < x ∧ x ≤ 100) → checkTraceSize x = 10) := by
  constructor <;> intro h <;> simp [checkTraceSize, h]

/-- Witness for C8: size 55 is kept, sizes 101 and -3 fall back to 10. -/
theorem c8_trace_size_clamp_witness :
    checkTraceSize 55 = 55 ∧ checkTraceSize 101 = 10 ∧ checkTraceSize (-3) = 10 :=
  ⟨(c8_trace_size_clamp 55).1 (by decide),
   (c8_trace_size_clamp 101).2 (by decide),
   (c8_trace_size_clamp (-3)).2 (by decide)⟩

/-- C9: the claim that a supplied destination identifier is always used
fails on CCPCanCan: with the caller supplying identifier 0 and the
channel configured with default 291, the Python truthiness defaulting
remote_id or self.remote_id submits the configured 291 instead of the
supplied 0, while CCVectorCan (which tests remote_id is None) submits
the supplied 0, matching the documented intent. -/
theorem c9_send_zero_remote_id_bug :
    (pcanSendFrame (some 291) false true false [1, 2] (some 0)).arbitrationId = some 291 ∧
    (vectorSendFrame (some 291) false true [1, 2] (some 0)).arbitrationId = some 0 ∧
    (pcanSendFrame (some 291) false true false [1, 2] (some 0)).arbitrationId ≠ some 0 := by
  refine ⟨rfl, rfl, ?_⟩
  decide

/-- C10: whatever the outcome of the underlying recv, the dictionary
returned by the PCAN receive contains the key msg; it contains the key
remote_id exactly when a frame was received; and although the model
carries the timestamp of every received frame, no timestamp key is ever
present in the result. -/
theorem c10_receive_dict_keys (t : ℚ) (o : RecvOutcome) :
    "msg" ∈ (pcanReceive t o).map Prod.fst ∧
    ("remote_id" ∈ (pcanReceive t o).map Prod.fst ↔
      ∃ rid p ts, o = RecvOutcome.frame rid p ts) ∧
    "timestamp" ∉ (pcanReceive t o).map Prod.fst := by
  cases o <;> simp [pcanReceive]

/-- Witness for C10: both a received frame and the no-frame outcome,
evaluated concretely. -/
theorem c10_receive_dict_keys_witness :
    "timestamp" ∉ (pcanReceive 0 (RecvOutcome.frame 5 [1] 2)).map Prod.fst ∧
    ("remote_id" ∈ (pcanReceive 0 (RecvOutcome.frame 5 [1] 2)).map Prod.fst ↔
      ∃ rid p ts, RecvOutcome.frame 5 [1] 2 = RecvOutcome.frame rid p ts) ∧
    "msg" ∈ (pcanReceive 0 RecvOutcome.noFrame).map Prod.fst :=
  ⟨(c10_receive_dict_keys 0 (RecvOutcome.frame 5 [1] 2)).2.2,
   (c10_receive_dict_keys 0 (RecvOutcome.frame 5 [1] 2)).2.1,
   (c10_receive_dict_keys 0 RecvOutcome.noFrame).1⟩

/-- C4: for every timeout and every recv outcome, the PCAN receive
returns one of the ReceiveResult shapes (frame dictionary or the
nothing-available dictionary) — it is a total function, so no exception
escapes — and both the bus-level error and the unexpected failure
normalise to the nothing-available result, on the vector backend as
well. -/
theorem c4_receive_never_raises (t : ℚ) (parsePacket : List Nat → Option (List Nat))
    (raw : Bool) (o : RecvOutcome) :
    (pcanReceive t o = [("msg", RVal.pyNone)] ∨
      ∃ rid p ts, o = RecvOutcome.frame rid p ts ∧
        pcanReceive t o = [("msg", RVal.payload p), ("remote_id", RVal.id rid)]) ∧
    (o = RecvOutcome.canError ∨ o = RecvOutcome.unexpectedError →
      pcanReceive t o = [("msg", RVal.pyNone)] ∧
        vectorReceive parsePacket raw o = (none, none)) := by
  cases o with
  | frame rid p ts =>
    refine ⟨Or.inr ⟨rid, p, ts, rfl, rfl⟩, ?_⟩
    rintro (h | h) <;> exact absurd h (by simp)
  | noFrame => simp [pcanReceive, vectorReceive]
  | canError => simp [pcanReceive, vectorReceive]
  | unexpectedError => simp [pcanReceive, vectorReceive]

/-- Witness for C4: the bus-level error outcome at a concrete timeout
yields the nothing-available result on both backends. -/
theorem c4_receive_never_raises_witness :
    pcanReceive 1 RecvOutcome.canError = [("msg", RVal.pyNone)] ∧
    vectorReceive (fun p => some p) false RecvOutcome.canError = (none, none) :=
  (c4_receive_never_raises 1 (fun p => some p) false RecvOutcome.canError).2 (Or.inl rfl)

/-- C5: closing an opened channel with logging activated never
propagates a diagnostic-release failure: for every Uninitialize outcome
(success, non-OK result code, raised exception) the close returns
normally with the bus handle and the raw PCAN handle both cleared. -/
theorem c5_close_clears_handles (uo : UninitOutcome) (s : PcanState)
    (hbus : s.bus = some ()) (hlog : s.loggingActivated = true) :
    pcanClose uo s = .ok ⟨none, none, true⟩ := by
  obtain ⟨b, r, l⟩ := s
  simp only at hbus hlog
  subst hbus hlog
  cases uo <;> rfl

/-- Witness for C5: the opened, logging-activated state closed while
Uninitialize raises still ends with both handles cleared. -/
theorem c5_close_clears_handles_witness :
    pcanClose UninitOutcome.raised ⟨some (), some (), true⟩ =
      .ok ⟨none, none, true⟩ :=
  c5_close_clears_handles UninitOutcome.raised ⟨some (), some (), true⟩ rfl rfl

/-- C6 counterexample: on an opened channel whose diagnostic teardown
raises, the first close succeeds, but the second close in direct
succession raises an AttributeError because self.bus is then None and
nothing guards the self.bus.shutdown() call — the claim that close is
callable twice without raising is false on the code. -/
theorem c6_double_close_counterexample :
    pcanClose UninitOutcome.raised ⟨some (), none, true⟩ = .ok ⟨none, none, true⟩ ∧
    pcanClose UninitOutcome.raised ⟨none, none, true⟩ =
      .error CloseError.attributeError :=
  ⟨rfl, rfl⟩

/-- C6 amended: for every opened channel, the first close returns
normally whatever the diagnostic teardown outcome, and the second close
in direct succession raises an AttributeError since the first close
cleared the bus handle. -/
theorem c6_second_close_raises (uo1 uo2 : UninitOutcome) (s : PcanState)
    (hbus : s.bus = some ()) :
    ∃ s1, pcanClose uo1 s = .ok s1 ∧
      pcanClose uo2 s1 = .error CloseError.attributeError := by
  obtain ⟨b, r, l⟩ := s
  simp only at hbus
  subst hbus
  cases l with
  | false => exact ⟨⟨none, r, false⟩, by cases uo1 <;> rfl, rfl⟩
  | true => exact ⟨⟨none, none, true⟩, by cases uo1 <;> rfl, rfl⟩

/-- Witness for the amended C6: concrete opened state, teardown raising
both times. -/
theorem c6_second_close_raises_witness :
    ∃ s1, pcanClose UninitOutcome.raised ⟨some (), some (), true⟩ = .ok s1 ∧
      pcanClose UninitOutcome.raised s1 = .error CloseError.attributeError :=
  c6_second_close_raises UninitOutcome.raised UninitOutcome.raised
    ⟨some (), some (), true⟩ rfl

/-- C7: for every trace-path string, a pathlib suffix equal to .trc
makes construction succeed with the file name set to the last component
and the directory to the parent; an empty suffix (empty path or bare
directory) succeeds with no fixed file name; and every other non-empty
suffix makes the purely local setup fail with the ValueError — no
hardware interaction occurs anywhere in this construction-time
function. -/
theorem c7_trace_path_validation (s : String) :
    (pathSuffix (parsePath s) = ".trc" →
      tracePathSetup s =
        .ok ⟨pathParent (parsePath s), some (pathName (parsePath s))⟩) ∧
    (pathSuffix (parsePath s) = "" →
      tracePathSetup s = .ok ⟨parsePath s, none⟩) ∧
    (pathSuffix (parsePath s) ≠ ".trc" → pathSuffix (parsePath s) ≠ "" →
      tracePathSetup s =
        .error "ValueError: trace name is incorrect, it should be a trc file") := by
  refine ⟨fun h => ?_, fun h => ?_, fun h1 h2 => ?_⟩
  · simp [tracePathSetup, h]
  · have hne : pathSuffix (parsePath s) ≠ ".trc" := by
      rw [h]
      decide
    simp [tracePathSetup, pathTruthy, h, hne]
  · simp [tracePathSetup, pathTruthy, h1, h2]

/-- Witness for C7: a .trc path splits into name and parent, a bare
directory keeps no fixed name, and a .log path is rejected. -/
theorem c7_trace_path_validation_witness :
    tracePathSetup "logs/x.trc" =
      .ok ⟨pathParent (parsePath "logs/x.trc"), some (pathName (parsePath "logs/x.trc"))⟩ ∧
    tracePathSetup "logs" = .ok ⟨parsePath "logs", none⟩ ∧
    tracePathSetup "x.log" =
      .error "ValueError: trace name is incorrect, it should be a trc file" :=
  ⟨(c7_trace_path_validation "logs/x.trc").1 (by decide),
   (c7_trace_path_validation "logs").2.1 (by decide),
   (c7_trace_path_validation "x.log").2.2 (by decide) (by decide)⟩

/-- C3: in the renumbering pass, every header line (index below 33) is
left unchanged, and every body line is rewritten to the 1-based body
position left-padded into exactly the first seven character positions
with every byte from position seven on preserved — stated for files
whose body positions fit the seven-character field, which the fixed
field width of the format presupposes. -/
theorem c3_renumber_frame_effect (lines : List (List Char)) (j : Nat)
    (hsize : lines.length ≤ firstMessageLine + 9999999) :
    (j < firstMessageLine →
      (fixMessageNumbers firstMessageLine lines).getD j [] = lines.getD j []) ∧
    (firstMessageLine ≤ j → j < lines.length →
      (fixMessageNumbers firstMessageLine lines).getD j [] =
        rjust messageNbIndex (decDigits (j + 1 - firstMessageLine)) ++
          (lines.getD j []).drop messageNbIndex ∧
      ((fixMessageNumbers firstMessageLine lines).getD j []).take messageNbIndex =
        rjust messageNbIndex (decDigits (j + 1 - firstMessageLine)) ∧
      ((fixMessageNumbers firstMessageLine lines).getD j []).drop messageNbIndex =
        (lines.getD j []).drop messageNbIndex) := by
  constructor
  · intro hj
    by_cases hlen : j < lines.length
    · rw [fixMessageNumbers, fixFrom_getD _ _ 0 j hlen, if_pos (by omega)]
    · have h1 : lines.length ≤ j := Nat.not_lt.1 hlen
      have h2 : (fixMessageNumbers firstMessageLine lines).length ≤ j := by
        rw [fixMessageNumbers, fixFrom_length]
        exact h1
      rw [List.getD_eq_default _ _ h2, List.getD_eq_default _ _ h1]
  · intro hj hlen
    have heq : (fixMessageNumbers firstMessageLine lines).getD j [] =
        fixLine (j + 1 - firstMessageLine) (lines.getD j []) := by
      rw [fixMessageNumbers, fixFrom_getD _ _ 0 j hlen, if_neg (by omega)]
      have : 0 + j + 1 - firstMessageLine = j + 1 - firstMessageLine := by omega
      rw [this]
    have hfml : firstMessageLine = 33 := rfl
    have hbound : j + 1 - firstMessageLine < 10 ^ 7 := by
      have : (10 : Nat) ^ 7 = 10000000 := by norm_num
      omega
    have hwidth : (decDigits (j + 1 - firstMessageLine)).length ≤ messageNbIndex :=
      decDigits_length_le 7 (j + 1 - firstMessageLine) (by omega) hbound
    have hrl : (rjust messageNbIndex (decDigits (j + 1 - firstMessageLine))).length =
        messageNbIndex := rjust_length _ _ hwidth
    refine ⟨heq, ?_, ?_⟩
    · rw [heq, fixLine, List.take_left' hrl]
    · rw [heq, fixLine, List.drop_left' hrl]

/-- Witness for C3: a 34-line file, checking the header line at index 0
is untouched and the first body line at index 33 gets the padded number
1 with its tail preserved. -/
theorem c3_renumber_frame_effect_witness :
    (fixMessageNumbers firstMessageLine (List.replicate 34 [' ', ' ', ' ', ' ', ' ',
        ' ', ' ', '1', ')'])).getD 0 [] = [' ', ' ', ' ', ' ', ' ', ' ', ' ', '1', ')'] ∧
    (fixMessageNumbers firstMessageLine (List.replicate 34 [' ', ' ', ' ', ' ', ' ',
        ' ', ' ', '1', ')'])).getD 33 [] =
      rjust messageNbIndex (decDigits 1) ++
        ([' ', ' ', ' ', ' ', ' ', ' ', ' ', '1', ')'] : List Char).drop messageNbIndex := by
  have h := c3_renumber_frame_effect
    (List.replicate 34 [' ', ' ', ' ', ' ', ' ', ' ', ' ', '1', ')']) 33 (by norm_num)
  have h0 := c3_renumber_frame_effect
    (List.replicate 34 [' ', ' ', ' ', ' ', ' ', ' ', ' ', '1', ')']) 0 (by norm_num)
  refine ⟨?_, ?_⟩
  · have := h0.1 (by decide)
    rw [this]
    rfl
  · have := (h.2 (by decide) (by decide)).1
    rw [this]
    rfl

/-- C2: for a successful merge of segments that each consist of the
33-line header followed by body lines, the merged output has exactly
33 + N lines where N is the sum of the body sizes of all segments (the
target keeps its own body, every other segment contributes its lines
beyond the header), and the body line at 0-based body position i carries
the sequence number i + 1 left-justified into the number field — the
numbers are exactly 1..N in order with no gaps. -/
theorem c2_merge_body_count_and_numbering (segs : List (List (List Char)))
    (hne : segs ≠ []) (hlen : ∀ s ∈ segs, firstMessageLine ≤ s.length) :
    (mergedContent segs).length = firstMessageLine + bodyTotal segs ∧
    ∀ i, i < bodyTotal segs →
      (mergedContent segs).getD (firstMessageLine + i) [] =
        rjust messageNbIndex (decDigits (i + 1)) ++
          ((mergeSegments segs).getD (firstMessageLine + i) []).drop messageNbIndex := by
  have hm : (mergeSegments segs).length = firstMessageLine + bodyTotal segs :=
    mergeSegments_length segs hne hlen
  constructor
  · rw [mergedContent, fixMessageNumbers, fixFrom_length, hm]
  · intro i hi
    have hlt : firstMessageLine + i < (mergeSegments segs).length := by omega
    rw [mergedContent, fixMessageNumbers, fixFrom_getD _ _ 0 _ hlt,
      if_neg (by omega)]
    have : 0 + (firstMessageLine + i) + 1 - firstMessageLine = i + 1 := by omega
    rw [this]
    rfl

/-- Witness for C2: two segments of 34 and 35 lines merge into a file of
36 lines whose first body line is numbered 1. -/
theorem c2_merge_body_count_and_numbering_witness :
    (mergedContent [List.replicate 34 [' '], List.replicate 35 [' ']]).length = 36 ∧
    (mergedContent [List.replicate 34 [' '], List.replicate 35 [' ']]).getD 33 [] =
      rjust messageNbIndex (decDigits 1) ++
        ((mergeSegments [List.replicate 34 [' '], List.replicate 35 [' ']]).getD
          33 []).drop messageNbIndex := by
  have h := c2_merge_body_count_and_numbering
    [List.replicate 34 [' '], List.replicate 35 [' ']] (by decide)
    (by
      intro s hs
      simp only [List.mem_cons, List.not_mem_nil, or_false] at hs
      rcases hs with h1 | h2
      · rw [h1]; decide
      · rw [h2]; decide)
  refine ⟨h.1.trans (by decide), ?_⟩
  have h2 := h.2 0 (by decide)
  simpa using h2

/-- C1: the claim fails at trc_count = 0 with trace files present.  The
selection step slices with lst[-trc_count:], and the Python slice
lst[-0:] is the whole list, so with a lifetime count of zero successful
trace configurations every .trc file of the directory is selected and
merged: here b.trc is deleted by the merge instead of the merge being a
no-op, contradicting both the claim and the in-source comment that the
latest files corresponding to the number of traces created are taken. -/
theorem c1_zero_count_merge_not_noop :
    selectTraces 0 [⟨"a.trc", 1, []⟩, ⟨"b.trc", 2, []⟩] =
      [⟨"a.trc", 1, []⟩, ⟨"b.trc", 2, []⟩] ∧
    "b.trc" ∈ ([⟨"a.trc", 1, []⟩, ⟨"b.trc", 2, []⟩] : List TrcFile).map TrcFile.name ∧
    "b.trc" ∉ (mergeTrc none 0 [⟨"a.trc", 1, []⟩, ⟨"b.trc", 2, []⟩]).map TrcFile.name := by
  decide

end CcCan
